import Mathlib

/-!
Verification development for the dtools token toolkit.

The JavaScript sources are shallowly embedded: byte buffers are `List Nat`
(each entry a byte value), 64-bit amounts are `Nat` with explicit `% 2 ^ 64`
truncation where the code truncates, public keys are their 32-byte buffers,
and every `async` function that talks to the RPC connection is a pure
function of a `Connection` oracle returning the list of external calls it
performed together with its `Except` result.
-/

namespace DTools

/-! ## Little-endian byte encoding (bigint-buffer `toBufferLE` / `toBigIntLE`) -/

/-- `natToLE k n`: the `k` little-endian bytes of `n` (truncating at `256 ^ k`),
as `toBufferLE(n, k)` produces. -/
def natToLE : Nat → Nat → List Nat
  | 0, _ => []
  | k + 1, n => n % 256 :: natToLE k (n / 256)

/-- `leToNat bs`: the number read from little-endian bytes, as `toBigIntLE`. -/
def leToNat : List Nat → Nat
  | [] => 0
  | b :: bs => b + 256 * leToNat bs

/-- Bytes of base58 `TokenAAGbeQq5tGW2r5RoR3oauzN2EkNFiHNPw9q34s`. -/
def TOKEN_PROGRAM_ID : List Nat :=
  [6, 221, 246, 225, 157, 148, 189, 253, 114, 93, 243, 149, 227, 139, 237, 175,
   220, 179, 127, 50, 160, 52, 36, 34, 99, 161, 81, 137, 51, 162, 106, 232]

/-- Bytes of base58 `Dt8fRCpjeV6JDemhPmtcTKijgKdPxXHn9Wo9cXY5agtG`. -/
def ASSOCIATED_TOKEN_PROGRAM_ID : List Nat :=
  [191, 101, 135, 59, 24, 72, 108, 100, 182, 187, 174, 213, 76, 157, 196, 91,
   138, 2, 174, 96, 227, 235, 196, 159, 138, 173, 247, 8, 204, 82, 224, 225]

/-- Bytes of base58 `Memo1UhkJRfHyvLMcVucJwxXeuD728EqVDDwQDxFMNo`. -/
def MEMO_PROGRAM_ID : List Nat :=
  [5, 74, 83, 80, 248, 93, 200, 130, 214, 20, 165, 86, 114, 120, 138, 41,
   109, 223, 30, 171, 171, 208, 166, 6, 120, 136, 73, 50, 244, 238, 246, 160]

/-- Bytes of base58 `4MNPdKu9wFMvEeZBMt3Eipfs5ovVWTJb31pEXDJAAxX5`. -/
def OWNER_VALIDATION_PROGRAM_ID : List Nat :=
  [49, 202, 220, 226, 170, 54, 236, 4, 96, 70, 131, 234, 166, 241, 54, 44,
   50, 158, 17, 145, 4, 40, 66, 160, 78, 9, 184, 43, 117, 159, 179, 36]

/-- Bytes of base58 `SysvarRent111111111111111111111111111111111` (web3.js `SYSVAR_RENT_PUBKEY`). -/
def SYSVAR_RENT_PUBKEY : List Nat :=
  [6, 167, 213, 23, 25, 44, 92, 81, 33, 140, 201, 76, 61, 74, 241, 127,
   88, 218, 238, 8, 155, 161, 253, 68, 227, 219, 217, 138, 0, 0, 0, 0]

/-- The system program id `11111111111111111111111111111111` (all zero bytes). -/
def SYSTEM_PROGRAM_ID : List Nat := List.replicate 32 0

/-- `PublicKey.default` (all zero bytes). -/
def PUBLIC_KEY_DEFAULT : List Nat := List.replicate 32 0

/-! ## Token instruction layout (the `LAYOUT` union of `instructions.js`) -/

/-- The closed variant set registered on `LAYOUT`. -/
inductive TokenInstruction where
  | initializeMint (decimals : Nat) (mintAuthority : List Nat)
      (freezeAuthorityOption : Nat) (freezeAuthority : List Nat)
  | initializeAccount
  | mintTo (amount : Nat)
  | burn (amount : Nat)
  | closeAccount
  | transferChecked (amount : Nat) (decimals : Nat)
  deriving DecidableEq, Repr

/-- The `u8` discriminator value of each variant. -/
def TokenInstruction.tag : TokenInstruction → Nat
  | .initializeMint _ _ _ _ => 0
  | .initializeAccount => 1
  | .mintTo _ => 7
  | .burn _ => 8
  | .closeAccount => 9
  | .transferChecked _ _ => 12

/-- The declared span of each variant's struct (without the tag byte). -/
def TokenInstruction.span : TokenInstruction → Nat
  | .initializeMint _ _ _ _ => 66
  | .initializeAccount => 0
  | .mintTo _ => 8
  | .burn _ => 8
  | .closeAccount => 0
  | .transferChecked _ _ => 9

/-- The struct bytes of a variant (`u8` via DataView truncates mod 256,
`blob(32)` copies the raw 32 bytes, `u64` is 8 little-endian bytes). -/
def TokenInstruction.structBytes : TokenInstruction → List Nat
  | .initializeMint decimals mintAuthority freezeAuthorityOption freezeAuthority =>
      decimals % 256 :: mintAuthority ++ freezeAuthorityOption % 256 :: freezeAuthority
  | .initializeAccount => []
  | .mintTo amount => natToLE 8 amount
  | .burn amount => natToLE 8 amount
  | .closeAccount => []
  | .transferChecked amount decimals => natToLE 8 amount ++ [decimals % 256]

/-- Maximum of the registry variant spans (tag byte included), i.e. 1 + 66. -/
def instructionMaxSpan : Nat := 67

/-- `encodeTokenInstructionData`: allocate a zero buffer of `instructionMaxSpan`
bytes, write the tag byte and the variant struct at offset 0, and slice off the
used prefix (`b.slice(0, span)`). -/
def encodeTokenInstructionData (i : TokenInstruction) : List Nat :=
  let b := List.replicate instructionMaxSpan 0
  let payload := i.tag :: i.structBytes
  (payload ++ b.drop payload.length).take payload.length

/-- `LAYOUT.decode`: read the `u8` discriminator, then decode the registered
variant's struct; unknown tags and short buffers fail. -/
def decodeTokenInstructionData (bytes : List Nat) : Option TokenInstruction :=
  match bytes with
  | [] => none
  | tag :: rest =>
    if tag = 0 then
      if 66 ≤ rest.length then
        some (.initializeMint (rest.getD 0 0) ((rest.drop 1).take 32)
          (rest.getD 33 0) ((rest.drop 34).take 32))
      else none
    else if tag = 1 then some .initializeAccount
    else if tag = 7 then
      if 8 ≤ rest.length then some (.mintTo (leToNat (rest.take 8))) else none
    else if tag = 8 then
      if 8 ≤ rest.length then some (.burn (leToNat (rest.take 8))) else none
    else if tag = 9 then some .closeAccount
    else if tag = 12 then
      if 9 ≤ rest.length then
        some (.transferChecked (leToNat (rest.take 8)) (rest.getD 8 0))
      else none
    else none

/-- Field assignments actually representable on the wire: `u8` fields below 256,
`u64` amounts below `2 ^ 64`, authority blobs of exactly 32 bytes. -/
def WellFormedInstr : TokenInstruction → Prop
  | .initializeMint decimals mintAuthority freezeAuthorityOption freezeAuthority =>
      decimals < 256 ∧ mintAuthority.length = 32 ∧
      freezeAuthorityOption < 256 ∧ freezeAuthority.length = 32
  | .initializeAccount => True
  | .mintTo amount => amount < 2 ^ 64
  | .burn amount => amount < 2 ^ 64
  | .closeAccount => True
  | .transferChecked amount decimals => amount < 2 ^ 64 ∧ decimals < 256

instance : (i : TokenInstruction) → Decidable (WellFormedInstr i) := by
  intro i
  cases i <;> simp only [WellFormedInstr] <;> infer_instance

/-! ## Instructions and builders (`instructions.js`) -/

/-- One entry of a `TransactionInstruction`'s key list. -/
structure AccountMeta where
  pubkey : List Nat
  isSigner : Bool
  isWritable : Bool
  deriving DecidableEq, Repr

/-- A `TransactionInstruction`: ordered keys, payload bytes, program id. -/
structure Instruction where
  keys : List AccountMeta
  data : List Nat
  programId : List Nat
  deriving DecidableEq, Repr

/-- `initializeMint` builder: mint(W), rent sysvar(—); freeze authority is an
optional key encoded as a boolean option byte plus `PublicKey.default`. -/
def initializeMint (mint : List Nat) (decimals : Nat) (mintAuthority : List Nat)
    (freezeAuthority : Option (List Nat)) : Instruction :=
  { keys := [⟨mint, false, true⟩, ⟨SYSVAR_RENT_PUBKEY, false, false⟩],
    data := encodeTokenInstructionData
      (.initializeMint decimals mintAuthority
        (if freezeAuthority.isSome then 1 else 0)
        (freezeAuthority.getD PUBLIC_KEY_DEFAULT)),
    programId := TOKEN_PROGRAM_ID }

/-- `initializeAccount` builder: account(W), mint(—), owner(—), rent sysvar(—). -/
def initializeAccount (account mint owner : List Nat) : Instruction :=
  { keys := [⟨account, false, true⟩, ⟨mint, false, false⟩,
      ⟨owner, false, false⟩, ⟨SYSVAR_RENT_PUBKEY, false, false⟩],
    data := encodeTokenInstructionData .initializeAccount,
    programId := TOKEN_PROGRAM_ID }

/-- `transferChecked` builder: source(W), mint(—), destination(W), owner(S). -/
def transferChecked (source mint destination : List Nat) (amount decimals : Nat)
    (owner programId : List Nat) : Instruction :=
  { keys := [⟨source, false, true⟩, ⟨mint, false, false⟩,
      ⟨destination, false, true⟩, ⟨owner, true, false⟩],
    data := encodeTokenInstructionData (.transferChecked amount decimals),
    programId := programId }

/-- `mintTo` builder: mint(W), destination(W), mintAuthority(S). -/
def mintTo (mint destination : List Nat) (amount : Nat)
    (mintAuthority : List Nat) : Instruction :=
  { keys := [⟨mint, false, true⟩, ⟨destination, false, true⟩,
      ⟨mintAuthority, true, false⟩],
    data := encodeTokenInstructionData (.mintTo amount),
    programId := TOKEN_PROGRAM_ID }

/-- `closeAccount` builder: source(W), destination(W), owner(S). -/
def closeAccount (source destination owner : List Nat) : Instruction :=
  { keys := [⟨source, false, true⟩, ⟨destination, false, true⟩,
      ⟨owner, true, false⟩],
    data := encodeTokenInstructionData .closeAccount,
    programId := TOKEN_PROGRAM_ID }

/-- `memoInstruction` builder: no accounts, payload is the memo's UTF-8 bytes
(the memo argument is embedded as its byte sequence). -/
def memoInstruction (memo : List Nat) : Instruction :=
  { keys := [], data := memo, programId := MEMO_PROGRAM_ID }

/-- `encodeOwnerValidationInstruction`: a 32-byte buffer holding the expected
owner key (`OWNER_VALIDATION_LAYOUT` is a single 32-byte public-key field). -/
def encodeOwnerValidationInstruction (account : List Nat) : List Nat :=
  (account ++ List.replicate 32 0).take 32

/-- `assertOwner` builder: account(—), payload carries the expected owner. -/
def assertOwner (account owner : List Nat) : Instruction :=
  { keys := [⟨account, false, false⟩],
    data := encodeOwnerValidationInstruction owner,
    programId := OWNER_VALIDATION_PROGRAM_ID }

/-- `burn` builder: account(W), mint(W), owner(S). -/
def burn (account mint : List Nat) (amount : Nat) (owner : List Nat) : Instruction :=
  { keys := [⟨account, false, true⟩, ⟨mint, false, true⟩, ⟨owner, true, false⟩],
    data := encodeTokenInstructionData (.burn amount),
    programId := TOKEN_PROGRAM_ID }


/-! ## Transactions, the connection oracle, and external-call traces -/

/-- A web3.js `Transaction` as used by this code: ordered instructions, the
blockhash attached at submission time, the signer set declared by
`setSigners`, and the keys that have actually signed (`partialSign` plus the
wallet's `signTransaction`). Freshly composed transactions have no blockhash
and no signatures. -/
structure Transaction where
  instructions : List Instruction := []
  recentBlockhash : Option Nat := none
  signerPubkeys : List (List Nat) := []
  signedBy : List (List Nat) := []
  deriving DecidableEq, Repr

/-- `Transaction.add` with a single instruction. -/
def Transaction.addIx (tx : Transaction) (ix : Instruction) : Transaction :=
  { tx with instructions := tx.instructions ++ [ix] }

/-- A keypair; only its public key is relevant to composition. -/
structure Keypair where
  publicKey : List Nat
  deriving DecidableEq, Repr

/-- The wallet capability: an identity whose `signTransaction` marks the
transaction as signed by it. -/
structure Wallet where
  publicKey : List Nat
  deriving DecidableEq, Repr

/-- `wallet.signTransaction(tx)`. -/
def Wallet.signTransaction (w : Wallet) (tx : Transaction) : Transaction :=
  { tx with signedBy := tx.signedBy ++ [w.publicKey] }

/-- The `getAccountInfo` result shape consumed by this code. -/
structure AccountInfo where
  data : List Nat
  owner : List Nat
  lamports : Nat
  deriving DecidableEq, Repr

/-- One poll response of `connection.confirmTransaction`: the RPC call throws
(timeout/pending), reports success, or reports an on-chain error. -/
inductive ConfirmResp where
  | failure
  | success
  | chainErr
  deriving DecidableEq, Repr

/-- One external call performed by an operation, in order. -/
inductive ExtCall where
  | getAccountInfo (key : List Nat)
  | getMinimumBalanceForRentExemption (size : Nat)
  | getRecentBlockhash
  | walletSignTransaction
  | sendRawTransaction
  | confirmTransaction
  deriving DecidableEq, Repr

/-- Whether an external call is a pure read of one account. -/
def ExtCall.isAccountRead : ExtCall → Bool
  | .getAccountInfo _ => true
  | _ => false

/-- The errors this layer can raise (each the `Error` thrown at the cited
source line, plus the web3.js derivation failure). -/
inductive TokenError where
  | destinationUnfunded
  | accountNotFound
  | zeroBalance
  | noValidDerivation
  | referenceError
  | transactionFailed
  | rpcFailure
  deriving DecidableEq, Repr

/-- The RPC connection, abstracted as an oracle: what each query would
return. `confirmResponses i` is the response of the `i`-th confirmation
poll attempt. -/
structure Connection where
  getAccountInfo : List Nat → Option AccountInfo
  getMinimumBalanceForRentExemption : Nat → Nat
  getRecentBlockhash : Nat
  sendRawTransaction : Transaction → Nat
  confirmResponses : Nat → ConfirmResp

/-- `signAndSendTransaction`: fetch a recent blockhash, set the fee payer and
signer list, partial-sign with the extra signers when present, delegate to the
wallet's signer, serialize and send. Returns the connection's signature id. -/
def signAndSendTransaction (conn : Connection) (tx : Transaction) (wallet : Wallet)
    (signers : List Keypair) : List ExtCall × Except TokenError Nat :=
  let tx1 := { tx with recentBlockhash := some conn.getRecentBlockhash }
  let tx2 := { tx1 with
    signerPubkeys := wallet.publicKey :: signers.map Keypair.publicKey }
  let tx3 :=
    if 0 < signers.length then
      { tx2 with signedBy := tx2.signedBy ++ signers.map Keypair.publicKey }
    else tx2
  let tx4 := wallet.signTransaction tx3
  ([.getRecentBlockhash, .walletSignTransaction, .sendRawTransaction],
    .ok (conn.sendRawTransaction tx4))

/-- `SystemProgram.createAccount`: funder(S, W) and the new account(S, W),
with the create layout (u32 index 0, u64 lamports, u64 space, 32-byte owner)
as payload, owned by the system program. -/
def systemCreateAccount (fromPubkey newAccountPubkey : List Nat)
    (lamports space : Nat) (owner : List Nat) : Instruction :=
  { keys := [⟨fromPubkey, true, true⟩, ⟨newAccountPubkey, true, true⟩],
    data := natToLE 4 0 ++ natToLE 8 lamports ++ natToLE 8 space ++ owner,
    programId := SYSTEM_PROGRAM_ID }

/-! ## Account data layouts (`data.js`) -/

/-- Modelled from the spec: `data.js` is not under `src/`. The spec (§6) pins a
fixed-span token-account record; the exact span is not pinned there, so the
standard 165-byte record size is used — no claim depends on this value. -/
def ACCOUNT_LAYOUT_span : Nat := 165

/-- Modelled from the spec: `data.js` is not under `src/`. The spec (§6) pins a
fixed-span mint record with decimals at byte offset 44; the exact span is not
pinned there, so the standard 82-byte record size is used — no claim depends
on this value. -/
def MINT_LAYOUT_span : Nat := 82

/-- The decoded shape of a ledger-held token account. -/
structure TokenAccountData where
  mint : List Nat
  owner : List Nat
  amount : Nat
  deriving DecidableEq, Repr

/-- Modelled from the spec: `parseTokenAccountData` lives in the missing
`data.js`. The spec (§6) pins the layout `[32B mint][32B owner][8B amount,
little-endian]` followed by fields not interpreted by this layer, and the
in-repo mock (`full_test.js` `simulateTokenAccount`) writes those same
offsets. -/
def parseTokenAccountData (data : List Nat) : TokenAccountData :=
  { mint := data.take 32,
    owner := (data.drop 32).take 32,
    amount := leToNat ((data.drop 64).take 8) }

/-! ## Mint composition (`mint.js`) -/

/-- The transaction and signer list `createAndInitializeMint` composes before
handing them to `signAndSendTransaction`: always `createAccount(mint)` then
`initializeMint`; only when `amount > 0`, additionally
`createAccount(initialAccount)`, `initializeAccount`, `mintTo`, with the
initial account pushed onto the signer list. -/
def createAndInitializeMintTx (conn : Connection) (owner : Wallet)
    (mint : Keypair) (amount decimals : Nat) (initialAccount : Keypair) :
    Transaction × List Keypair :=
  let tx := Transaction.addIx {}
    (systemCreateAccount owner.publicKey mint.publicKey
      (conn.getMinimumBalanceForRentExemption MINT_LAYOUT_span)
      MINT_LAYOUT_span TOKEN_PROGRAM_ID)
  let tx := tx.addIx (initializeMint mint.publicKey decimals owner.publicKey none)
  let signers := [mint]
  if 0 < amount then
    let tx := tx.addIx
      (systemCreateAccount owner.publicKey initialAccount.publicKey
        (conn.getMinimumBalanceForRentExemption ACCOUNT_LAYOUT_span)
        ACCOUNT_LAYOUT_span TOKEN_PROGRAM_ID)
    let signers := signers ++ [initialAccount]
    let tx := tx.addIx
      (initializeAccount initialAccount.publicKey mint.publicKey owner.publicKey)
    let tx := tx.addIx
      (mintTo mint.publicKey initialAccount.publicKey amount owner.publicKey)
    (tx, signers)
  else (tx, signers)

/-- `createAndInitializeMint`: compose (querying rent exemption once, twice in
the `amount > 0` branch) and submit. -/
def createAndInitializeMint (conn : Connection) (owner : Wallet)
    (mint : Keypair) (amount decimals : Nat) (initialAccount : Keypair) :
    List ExtCall × Except TokenError Nat :=
  let (tx, signers) := createAndInitializeMintTx conn owner mint amount decimals
    initialAccount
  let (tr, r) := signAndSendTransaction conn tx owner signers
  (((ExtCall.getMinimumBalanceForRentExemption MINT_LAYOUT_span ::
      if 0 < amount then
        [ExtCall.getMinimumBalanceForRentExemption ACCOUNT_LAYOUT_span]
      else []) ++ tr), r)

/-- `mintMoreTokens`: one `mintTo` instruction, signed and sent by the mint
authority wallet. -/
def mintMoreTokens (conn : Connection) (mintAuthority : Wallet)
    (mint destination : List Nat) (amount : Nat) :
    List ExtCall × Except TokenError Nat :=
  signAndSendTransaction conn
    (Transaction.addIx {} (mintTo mint destination amount mintAuthority.publicKey))
    mintAuthority []

/-- The identifiers in scope in the `mint.js` module: its two import lists
(from `./instructions.js` and `@solana/web3.js`, plus `./data.js`) and its own
declarations. `Keypair` is not among them. -/
inductive MintJsName where
  | closeAccount | initializeAccount | initializeMint | memoInstruction
  | mintTo | tokenProgramId | tokenMetadataProgramId | signAndSendTransaction
  | transferChecked
  | publicKey | systemProgram | sysvarRentPubkey | transaction
  | transactionInstruction
  | accountLayout | mintLayout
  | createAndInitializeMint | mintMoreTokens | mintMoreTokensWithNewAccount
  | keypair
  deriving DecidableEq, Repr

/-- The module scope of `mint.js` (its imports at lines 4–22 plus its three
exported functions). -/
def mintJsScope : List MintJsName :=
  [.closeAccount, .initializeAccount, .initializeMint, .memoInstruction,
   .mintTo, .tokenProgramId, .tokenMetadataProgramId, .signAndSendTransaction,
   .transferChecked, .publicKey, .systemProgram, .sysvarRentPubkey,
   .transaction, .transactionInstruction, .accountLayout, .mintLayout,
   .createAndInitializeMint, .mintMoreTokens, .mintMoreTokensWithNewAccount]

/-- `mintMoreTokensWithNewAccount`: its first statement evaluates
`Keypair.generate()`, which resolves the identifier `Keypair` in the module
scope; an unresolved identifier is a `ReferenceError` raised before anything
else runs. When the name resolves (to `generate`, an injected keypair
source), the function composes `[createAccount, initializeAccount, mintTo]`
for a fresh token account and submits. -/
def mintMoreTokensWithNewAccount (scope : List MintJsName) (generate : Keypair)
    (conn : Connection) (mintAuthority : Wallet) (mint destinationOwner : List Nat)
    (amount : Nat) : List ExtCall × Except TokenError Nat :=
  if MintJsName.keypair ∈ scope then
    let newTokenAccount := generate
    let tx := Transaction.addIx {}
      (systemCreateAccount mintAuthority.publicKey newTokenAccount.publicKey
        (conn.getMinimumBalanceForRentExemption ACCOUNT_LAYOUT_span)
        ACCOUNT_LAYOUT_span TOKEN_PROGRAM_ID)
    let tx := tx.addIx
      (initializeAccount newTokenAccount.publicKey mint destinationOwner)
    let tx := tx.addIx
      (mintTo mint newTokenAccount.publicKey amount mintAuthority.publicKey)
    let (tr, r) := signAndSendTransaction conn tx mintAuthority [newTokenAccount]
    (ExtCall.getMinimumBalanceForRentExemption ACCOUNT_LAYOUT_span :: tr, r)
  else ([], .error .referenceError)

/-! ## Burn composition (`burn.js`, shipped as `src/unnamed/part_000`) -/

/-- `burnTokens`: one `burn` instruction, signed and sent by the owner. -/
def burnTokens (conn : Connection) (owner : Wallet) (tokenAccount mint : List Nat)
    (amount : Nat) : List ExtCall × Except TokenError Nat :=
  signAndSendTransaction conn
    (Transaction.addIx {} (burn tokenAccount mint amount owner.publicKey))
    owner []

/-- `burnTokensAndClose`: a `burn` instruction, then a `closeAccount`
instruction appended only when `closeIfEmpty` is set, signed and sent. -/
def burnTokensAndClose (conn : Connection) (owner : Wallet)
    (tokenAccount mint : List Nat) (amount : Nat) (closeIfEmpty : Bool) :
    List ExtCall × Except TokenError Nat :=
  let tx := Transaction.addIx {} (burn tokenAccount mint amount owner.publicKey)
  let tx :=
    if closeIfEmpty then
      tx.addIx (closeAccount tokenAccount owner.publicKey owner.publicKey)
    else tx
  signAndSendTransaction conn tx owner []

/-- `burnAllTokens`: read the account, fail with `AccountNotFound` when it does
not exist, decode its balance, fail with `ZeroBalance` when the balance is 0,
otherwise delegate to `burnTokensAndClose` with the full decoded balance. -/
def burnAllTokens (conn : Connection) (owner : Wallet)
    (tokenAccount mint : List Nat) (shouldClose : Bool) :
    List ExtCall × Except TokenError Nat :=
  match conn.getAccountInfo tokenAccount with
  | none => ([.getAccountInfo tokenAccount], .error .accountNotFound)
  | some accountInfo =>
    let tokenData := parseTokenAccountData accountInfo.data
    if tokenData.amount = 0 then
      ([.getAccountInfo tokenAccount], .error .zeroBalance)
    else
      let (tr, r) := burnTokensAndClose conn owner tokenAccount mint
        tokenData.amount shouldClose
      (ExtCall.getAccountInfo tokenAccount :: tr, r)

/-! ## Confirmation polling (`production_test.js` `confirmTransaction`) -/

/-- The retry loop body, structurally recursing on the remaining attempts:
attempt `i` polls once; a success returns the result; a thrown RPC failure or
an on-chain error result is re-thrown on the last attempt (`i = maxRetries-1`)
and otherwise retried after the delay. Falling out of the loop (only possible
when `maxRetries = 0`) returns `none` (JS `undefined`). -/
def confirmGo (conn : Connection) (maxRetries : Nat) :
    Nat → Nat → List ExtCall × Except TokenError (Option Unit)
  | _, 0 => ([], .ok none)
  | i, fuel + 1 =>
    match conn.confirmResponses i with
    | .success => ([.confirmTransaction], .ok (some ()))
    | .failure =>
      if i = maxRetries - 1 then ([.confirmTransaction], .error .rpcFailure)
      else
        let (tr, r) := confirmGo conn maxRetries (i + 1) fuel
        (ExtCall.confirmTransaction :: tr, r)
    | .chainErr =>
      if i = maxRetries - 1 then
        ([.confirmTransaction], .error .transactionFailed)
      else
        let (tr, r) := confirmGo conn maxRetries (i + 1) fuel
        (ExtCall.confirmTransaction :: tr, r)

/-- `confirmTransaction(connection, signature, maxRetries = 30)`. -/
def confirmTransaction (conn : Connection) (maxRetries : Nat := 30) :
    List ExtCall × Except TokenError (Option Unit) :=
  confirmGo conn maxRetries 0 maxRetries

/-! ## SHA-256 (the hash behind `PublicKey.createProgramAddressSync`) -/

/-- The 64 SHA-256 round constants. -/
def SHA256_K : List Nat :=
  [1116352408, 1899447441, 3049323471, 3921009573, 961987163, 1508970993,
   2453635748, 2870763221, 3624381080, 310598401, 607225278, 1426881987,
   1925078388, 2162078206, 2614888103, 3248222580, 3835390401, 4022224774,
   264347078, 604807628, 770255983, 1249150122, 1555081692, 1996064986,
   2554220882, 2821834349, 2952996808, 3210313671, 3336571891, 3584528711,
   113926993, 338241895, 666307205, 773529912, 1294757372, 1396182291,
   1695183700, 1986661051, 2177026350, 2456956037, 2730485921, 2820302411,
   3259730800, 3345764771, 3516065817, 3600352804, 4094571909, 275423344,
   430227734, 506948616, 659060556, 883997877, 958139571, 1322822218,
   1537002063, 1747873779, 1955562222, 2024104815, 2227730452, 2361852424,
   2428436474, 2756734187, 3204031479, 3329325298]

/-- The SHA-256 initial hash state. -/
def SHA256_H0 : List Nat :=
  [1779033703, 3144134277, 1013904242, 2773480762, 1359893119, 2600822924,
   528734635, 1541459225]

/-- 32-bit right rotation. -/
def rotr32 (n x : Nat) : Nat := ((x >>> n) ||| (x <<< (32 - n))) % 2 ^ 32

/-- Big-endian bytes of `n` in `k` bytes. -/
def natToBE (k n : Nat) : List Nat := (natToLE k n).reverse

/-- SHA-256 message padding: `0x80`, zeros to 56 mod 64, 64-bit big-endian
bit length. -/
def sha256Pad (msg : List Nat) : List Nat :=
  msg ++ 128 :: List.replicate ((119 - msg.length % 64) % 64) 0 ++
    natToBE 8 (8 * msg.length)

/-- Split padded input into 64-byte blocks (fuel-driven). -/
def chunks64 : Nat → List Nat → List (List Nat)
  | 0, _ => []
  | _, [] => []
  | fuel + 1, l => l.take 64 :: chunks64 fuel (l.drop 64)

/-- Big-endian 32-bit words of a block. -/
def beWords : List Nat → List Nat
  | a :: b :: c :: d :: rest => (((a * 256 + b) * 256 + c) * 256 + d) :: beWords rest
  | _ => []

/-- Extend a 16-word schedule by `fuel` words. -/
def extendSchedule (fuel : Nat) (w : List Nat) : List Nat :=
  match fuel with
  | 0 => w
  | f + 1 =>
    let s0 :=
      let x := w.getD (w.length - 15) 0
      rotr32 7 x ^^^ rotr32 18 x ^^^ (x >>> 3)
    let s1 :=
      let x := w.getD (w.length - 2) 0
      rotr32 17 x ^^^ rotr32 19 x ^^^ (x >>> 10)
    extendSchedule f
      (w ++ [(w.getD (w.length - 16) 0 + s0 + w.getD (w.length - 7) 0 + s1) % 2 ^ 32])

/-- One SHA-256 compression round; `kw` is the round constant plus the
schedule word. -/
def sha256Round (s : Nat × Nat × Nat × Nat × Nat × Nat × Nat × Nat) (kw : Nat) :
    Nat × Nat × Nat × Nat × Nat × Nat × Nat × Nat :=
  match s with
  | (a, b, c, d, e, f, g, h) =>
    let bigS1 := rotr32 6 e ^^^ rotr32 11 e ^^^ rotr32 25 e
    let ch := (e &&& f) ^^^ ((e ^^^ 4294967295) &&& g)
    let t1 := (h + bigS1 + ch + kw) % 2 ^ 32
    let bigS0 := rotr32 2 a ^^^ rotr32 13 a ^^^ rotr32 22 a
    let maj := (a &&& b) ^^^ (a &&& c) ^^^ (b &&& c)
    let t2 := (bigS0 + maj) % 2 ^ 32
    ((t1 + t2) % 2 ^ 32, a, b, c, (d + t1) % 2 ^ 32, e, f, g)

/-- Compress one 64-byte block into the running state. -/
def sha256Blk (hs : List Nat) (block : List Nat) : List Nat :=
  let w := extendSchedule 48 (beWords block)
  let kw := List.zipWith (fun k x => k + x) SHA256_K w
  match hs with
  | [a0, b0, c0, d0, e0, f0, g0, h0] =>
    match kw.foldl sha256Round (a0, b0, c0, d0, e0, f0, g0, h0) with
    | (a, b, c, d, e, f, g, h) =>
      [(a0 + a) % 2 ^ 32, (b0 + b) % 2 ^ 32, (c0 + c) % 2 ^ 32,
       (d0 + d) % 2 ^ 32, (e0 + e) % 2 ^ 32, (f0 + f) % 2 ^ 32,
       (g0 + g) % 2 ^ 32, (h0 + h) % 2 ^ 32]
  | _ => hs

/-- SHA-256 digest of a byte sequence, as 32 bytes. -/
def sha256 (msg : List Nat) : List Nat :=
  let padded := sha256Pad msg
  ((chunks64 padded.length padded).foldl sha256Blk SHA256_H0).flatMap
    (natToBE 4)

/-! ## Edwards-curve membership (the off-curve test of address derivation) -/

/-- The field prime of curve25519. -/
def p25519 : Nat := 2 ^ 255 - 19

/-- The twisted-Edwards `d` constant (−121665/121666 mod `p25519`). -/
def d25519 : Nat :=
  37095705934669439343138083508754565189542113879843219016388785533085940283555

/-- Binary modular exponentiation (fuel-driven over the exponent's bits). -/
def powModGo (m : Nat) : Nat → Nat → Nat → Nat → Nat
  | 0, _, _, acc => acc
  | fuel + 1, b, e, acc =>
    if e = 0 then acc
    else powModGo m fuel (b * b % m) (e / 2)
      (if e % 2 = 1 then acc * b % m else acc)

/-- `b ^ e mod m` for exponents below `2 ^ 256`. -/
def powMod (b e m : Nat) : Nat := powModGo m 256 (b % m) e 1

/-- Whether 32 bytes decompress to an Edwards point: read the little-endian
y-coordinate (high bit dropped), and test whether `x² = (y² − 1)/(d·y² + 1)`
is solvable, via Euler's criterion. -/
def isOnCurve (bytes32 : List Nat) : Bool :=
  let y := leToNat bytes32 % 2 ^ 255 % p25519
  let u := (y * y + (p25519 - 1)) % p25519
  let v := (d25519 * y % p25519 * y + 1) % p25519
  if v = 0 then u == 0
  else
    let w := u * powMod v (p25519 - 2) p25519 % p25519
    w == 0 || powMod w ((p25519 - 1) / 2) p25519 == 1

/-! ## Program-derived addresses (`PublicKey.findProgramAddressSync`) -/

/-- The ASCII bytes of the derivation domain separator
`ProgramDerivedAddress`. -/
def PDA_MARKER : List Nat :=
  [80, 114, 111, 103, 114, 97, 109, 68, 101, 114, 105, 118, 101, 100, 65,
   100, 100, 114, 101, 115, 115]

/-- `createProgramAddressSync`: hash the concatenated seeds, the program id
and the domain separator. -/
def createProgramAddress (seeds : List (List Nat)) (programId : List Nat) :
    List Nat :=
  sha256 (seeds.flatten ++ programId ++ PDA_MARKER)

/-- The bump search: try nonces from 255 down to 1, returning the first
derived address that is *not* on the curve (on-curve candidates are the
`createProgramAddressSync` throw, caught and retried with the next nonce). -/
def findProgramAddressGo (seeds : List (List Nat)) (programId : List Nat) :
    Nat → Option (List Nat × Nat)
  | 0 => none
  | nonce + 1 =>
    let address := createProgramAddress (seeds ++ [[nonce + 1]]) programId
    if isOnCurve address then findProgramAddressGo seeds programId nonce
    else some (address, nonce + 1)

/-- `PublicKey.findProgramAddressSync(seeds, programId)`; `none` models the
`Unable to find a viable program address nonce` throw. -/
def findProgramAddressSync (seeds : List (List Nat)) (programId : List Nat) :
    Option (List Nat × Nat) :=
  findProgramAddressGo seeds programId 255

/-- `findAssociatedTokenAddress`: derive from the ordered seed list
[walletAddress, programId, tokenMintAddress] under the associated-token
program. -/
def findAssociatedTokenAddress (walletAddress tokenMintAddress : List Nat)
    (programId : List Nat := TOKEN_PROGRAM_ID) : Option (List Nat) :=
  (findProgramAddressSync [walletAddress, programId, tokenMintAddress]
    ASSOCIATED_TOKEN_PROGRAM_ID).map Prod.fst

/-! ## Transfer composition (`transfer.js`) -/

/-- The guard `!!info && info.owner.equals(programId)`. -/
def isTokenProgramOwned (info : Option AccountInfo) (programId : List Nat) : Bool :=
  match info with
  | none => false
  | some i => i.owner == programId

/-- The guard `!info || info.lamports === 0`. -/
def hasNoLamports (info : Option AccountInfo) : Bool :=
  match info with
  | none => true
  | some i => i.lamports == 0

/-- The create-associated-account instruction: `[funding(S,W), associated(W),
wallet(—), mint(—), system(—), tokenProgram(—), rent(—)]` with empty payload
under the associated-token program. -/
def associatedTokenCreateIx (fundingAddress associatedTokenAddress
    walletAddress dplTokenMintAddress programId : List Nat) : Instruction :=
  { keys := [⟨fundingAddress, true, true⟩,
      ⟨associatedTokenAddress, false, true⟩, ⟨walletAddress, false, false⟩,
      ⟨dplTokenMintAddress, false, false⟩, ⟨SYSTEM_PROGRAM_ID, false, false⟩,
      ⟨programId, false, false⟩, ⟨SYSVAR_RENT_PUBKEY, false, false⟩],
    data := [], programId := ASSOCIATED_TOKEN_PROGRAM_ID }

/-- `createAssociatedTokenAccountIx`: derive the associated address and build
the create instruction; returns the instruction and the address. -/
def createAssociatedTokenAccountIx (fundingAddress walletAddress
    dplTokenMintAddress programId : List Nat) :
    Option (Instruction × List Nat) :=
  (findAssociatedTokenAddress walletAddress dplTokenMintAddress programId).map
    fun associatedTokenAddress =>
      (associatedTokenCreateIx fundingAddress associatedTokenAddress
        walletAddress dplTokenMintAddress programId, associatedTokenAddress)

/-- `createTransferBetweenSplTokenAccountsInstruction` (it returns a
`Transaction`): one `transferChecked`, plus a memo instruction when a memo was
supplied. -/
def createTransferBetweenSplTokenAccountsInstruction (ownerPublicKey
    mint : List Nat) (decimals : Nat) (sourcePublicKey
    destinationPublicKey : List Nat) (amount : Nat) (memo : Option (List Nat))
    (programId : List Nat) : Transaction :=
  let transaction := Transaction.addIx {}
    (transferChecked sourcePublicKey mint destinationPublicKey amount decimals
      ownerPublicKey programId)
  match memo with
  | some m => transaction.addIx (memoInstruction m)
  | none => transaction

/-- `transferBetweenSplTokenAccounts`: returns the composed transaction
without touching the connection. -/
def transferBetweenSplTokenAccounts (owner : Wallet) (mint : List Nat)
    (decimals : Nat) (sourcePublicKey destinationPublicKey : List Nat)
    (amount : Nat) (memo : Option (List Nat)) (programId : List Nat) :
    Transaction :=
  createTransferBetweenSplTokenAccountsInstruction owner.publicKey mint
    decimals sourcePublicKey destinationPublicKey amount memo programId

/-- `createAndTransferToAccount`: create the destination's associated account
and append the transfer transaction's instructions
(`new Transaction().add(ix, tx)` flattens them in order); returned unsigned. -/
def createAndTransferToAccount (owner : Wallet) (sourcePublicKey
    destinationPublicKey : List Nat) (amount : Nat) (memo : Option (List Nat))
    (mint : List Nat) (decimals : Nat) (programId : List Nat) :
    Except TokenError Transaction :=
  match createAssociatedTokenAccountIx owner.publicKey destinationPublicKey
    mint programId with
  | none => .error .noValidDerivation
  | some (createAccountInstruction, newAddress) =>
    let inner := createTransferBetweenSplTokenAccountsInstruction
      owner.publicKey mint decimals sourcePublicKey newAddress amount memo
      programId
    .ok { instructions := createAccountInstruction :: inner.instructions }

/-- `transferTokens`: query the destination; a token-program-owned destination
gets a direct transfer; otherwise reject unfunded destinations unless
overridden; otherwise query the derived associated address and either transfer
to it or create-and-transfer. Every branch returns the composed transaction
(or the guard error) without signing or sending. -/
def transferTokens (conn : Connection) (owner : Wallet) (sourcePublicKey
    destinationPublicKey : List Nat) (amount : Nat) (memo : Option (List Nat))
    (mint : List Nat) (decimals : Nat) (overrideDestinationCheck : Bool)
    (programId : List Nat := TOKEN_PROGRAM_ID) :
    List ExtCall × Except TokenError Transaction :=
  let destinationAccountInfo := conn.getAccountInfo destinationPublicKey
  if isTokenProgramOwned destinationAccountInfo programId then
    ([.getAccountInfo destinationPublicKey],
     .ok (transferBetweenSplTokenAccounts owner mint decimals sourcePublicKey
       destinationPublicKey amount memo programId))
  else if hasNoLamports destinationAccountInfo && !overrideDestinationCheck then
    ([.getAccountInfo destinationPublicKey], .error .destinationUnfunded)
  else
    match findAssociatedTokenAddress destinationPublicKey mint programId with
    | none => ([.getAccountInfo destinationPublicKey], .error .noValidDerivation)
    | some destinationAssociatedTokenAddress =>
      if isTokenProgramOwned
          (conn.getAccountInfo destinationAssociatedTokenAddress) programId then
        ([.getAccountInfo destinationPublicKey,
          .getAccountInfo destinationAssociatedTokenAddress],
         .ok (transferBetweenSplTokenAccounts owner mint decimals
           sourcePublicKey destinationAssociatedTokenAddress amount memo
           programId))
      else
        ([.getAccountInfo destinationPublicKey,
          .getAccountInfo destinationAssociatedTokenAddress],
         createAndTransferToAccount owner sourcePublicKey destinationPublicKey
           amount memo mint decimals programId)

/-! ## Concrete fixtures -/

deriving instance DecidableEq for Except

/-- A 32-byte fixture key (bytes 1..32), used as a destination/owner. -/
def fixtureOwner : List Nat :=
  [1, 2, 3, 4, 5, 6, 7, 8, 9, 10, 11, 12, 13, 14, 15, 16,
   17, 18, 19, 20, 21, 22, 23, 24, 25, 26, 27, 28, 29, 30, 31, 32]

/-- A 32-byte fixture mint key (bytes 33..64). -/
def fixtureMint : List Nat :=
  [33, 34, 35, 36, 37, 38, 39, 40, 41, 42, 43, 44, 45, 46, 47, 48,
   49, 50, 51, 52, 53, 54, 55, 56, 57, 58, 59, 60, 61, 62, 63, 64]

/-- A 32-byte fixture source-account key (bytes 65..96). -/
def fixtureSource : List Nat :=
  [65, 66, 67, 68, 69, 70, 71, 72, 73, 74, 75, 76, 77, 78, 79, 80,
   81, 82, 83, 84, 85, 86, 87, 88, 89, 90, 91, 92, 93, 94, 95, 96]

/-- The expected associated address derived from
(`fixtureOwner`, `TOKEN_PROGRAM_ID`, `fixtureMint`), pinned from the
reference derivation (bump 254). -/
def pinnedAssociatedAddress : List Nat :=
  [76, 50, 28, 59, 83, 15, 210, 86, 7, 255, 44, 39, 145, 41, 35, 54,
   242, 41, 233, 114, 65, 143, 54, 163, 51, 30, 74, 90, 15, 69, 90, 190]

/-- A fixture wallet. -/
def fixtureWallet : Wallet := ⟨fixtureSource⟩

/-- A connection whose queries all return trivial defaults; fixtures override
single fields. -/
def baseConn : Connection :=
  { getAccountInfo := fun _ => none,
    getMinimumBalanceForRentExemption := fun _ => 0,
    getRecentBlockhash := 0,
    sendRawTransaction := fun _ => 0,
    confirmResponses := fun _ => .success }

/-- A ledger where `fixtureOwner` holds a token-program-owned account with
zero lamports. -/
def connTokenOwnedZeroLamports : Connection :=
  { baseConn with getAccountInfo := fun k =>
      if k = fixtureOwner then some ⟨[], TOKEN_PROGRAM_ID, 0⟩ else none }

/-- A ledger where `fixtureOwner` is a funded system account and no associated
account exists. -/
def connFundedSystemAccount : Connection :=
  { baseConn with getAccountInfo := fun k =>
      if k = fixtureOwner then some ⟨[], SYSTEM_PROGRAM_ID, 1⟩ else none }

/-- A ledger where `fixtureOwner` holds a funded token-program-owned token
account. -/
def connTokenOwnedFunded : Connection :=
  { baseConn with getAccountInfo := fun k =>
      if k = fixtureOwner then some ⟨[], TOKEN_PROGRAM_ID, 1⟩ else none }

/-- A 165-byte token-account record with amount 0. -/
def zeroBalanceRecord : AccountInfo :=
  ⟨List.replicate 165 0, TOKEN_PROGRAM_ID, 1⟩

/-- A 165-byte token-account record with amount 5. -/
def fiveBalanceRecord : AccountInfo :=
  ⟨List.replicate 64 0 ++ 5 :: List.replicate 100 0, TOKEN_PROGRAM_ID, 1⟩

/-- A ledger where `fixtureOwner`'s token account exists with amount 0. -/
def connZeroBalanceAccount : Connection :=
  { baseConn with getAccountInfo := fun k =>
      if k = fixtureOwner then some zeroBalanceRecord else none }

/-- A ledger where `fixtureOwner`'s token account exists with amount 5. -/
def connFiveBalanceAccount : Connection :=
  { baseConn with getAccountInfo := fun k =>
      if k = fixtureOwner then some fiveBalanceRecord else none }

/-- A connection whose first three confirmation polls throw, the fourth
succeeding. -/
def connThreeTimeouts : Connection :=
  { baseConn with confirmResponses := fun i =>
      if i < 3 then .failure else .success }

/-- A connection whose confirmation polls always throw. -/
def connAlwaysTimeout : Connection :=
  { baseConn with confirmResponses := fun _ => .failure }

/-! ## Theorems -/

theorem natToLE_length (k n : Nat) : (natToLE k n).length = k := by
  induction k generalizing n with
  | zero => rfl
  | succ k ih => simp [natToLE, ih]

theorem leToNat_natToLE (k n : Nat) : leToNat (natToLE k n) = n % 256 ^ k := by
  induction k generalizing n with
  | zero => simp [natToLE, leToNat, Nat.mod_one]
  | succ k ih =>
    rw [natToLE, leToNat, ih]
    have h : (256 : Nat) ^ (k + 1) = 256 * 256 ^ k := by ring
    rw [h, Nat.mod_mul]

/-! ## Program id constants (the base58 strings of `instructions.js`, decoded) -/

theorem encodeTokenInstructionData_eq (i : TokenInstruction) :
    encodeTokenInstructionData i = i.tag :: i.structBytes := by
  simp [encodeTokenInstructionData]

theorem take_natToLE (a : Nat) : (natToLE 8 a).take 8 = natToLE 8 a := by
  apply List.take_of_length_le
  simp [natToLE_length]

theorem leToNat_take_natToLE {a : Nat} (h : a < 2 ^ 64) :
    leToNat ((natToLE 8 a).take 8) = a := by
  rw [take_natToLE, leToNat_natToLE, Nat.mod_eq_of_lt]
  calc a < 2 ^ 64 := h
    _ = 256 ^ 8 := by norm_num

/-- C1: for every variant of the closed instruction set and every in-range field
assignment (u64 amounts in `[0, 2 ^ 64)`, u8 fields below 256, 32-byte blobs),
decoding the bytes produced by `encodeTokenInstructionData` reconstructs the
original fields, and the encoding's length is the tag byte plus the variant's
declared span — the unused tail of the maximum-span buffer is never included. -/
theorem c1_layout_roundtrip (i : TokenInstruction) (h : WellFormedInstr i) :
    decodeTokenInstructionData (encodeTokenInstructionData i) = some i ∧
    (encodeTokenInstructionData i).length = 1 + i.span := by
  rw [encodeTokenInstructionData_eq]
  cases i with
  | initializeMint d ma fao fa =>
    obtain ⟨hd, hma, hfao, hfa⟩ := h
    constructor
    · simp only [TokenInstruction.tag, TokenInstruction.structBytes,
        decodeTokenInstructionData]
      norm_num
      refine ⟨by omega, hd, List.take_left' hma, ?_, ?_⟩
      · rw [List.getElem?_append_right (by omega)]
        simp [hma, Nat.mod_eq_of_lt hfao]
      · rw [show (33 : Nat) = 32 + 1 from rfl, ← List.drop_drop,
          List.drop_left' hma, List.drop_one, List.tail_cons,
          List.take_of_length_le (by omega)]
    · simp [TokenInstruction.structBytes, TokenInstruction.span, hma, hfa]
  | initializeAccount =>
    exact ⟨rfl, rfl⟩
  | mintTo a =>
    refine ⟨?_, by simp [TokenInstruction.structBytes, TokenInstruction.span,
      natToLE_length]⟩
    simp only [TokenInstruction.tag, TokenInstruction.structBytes,
      decodeTokenInstructionData]
    norm_num
    exact ⟨by simp [natToLE_length], leToNat_take_natToLE h⟩
  | burn a =>
    refine ⟨?_, by simp [TokenInstruction.structBytes, TokenInstruction.span,
      natToLE_length]⟩
    simp only [TokenInstruction.tag, TokenInstruction.structBytes,
      decodeTokenInstructionData]
    norm_num
    exact ⟨by simp [natToLE_length], leToNat_take_natToLE h⟩
  | closeAccount =>
    exact ⟨rfl, rfl⟩
  | transferChecked a d =>
    obtain ⟨ha, hd⟩ := h
    refine ⟨?_, by simp [TokenInstruction.structBytes, TokenInstruction.span,
      natToLE_length]⟩
    simp only [TokenInstruction.tag, TokenInstruction.structBytes,
      decodeTokenInstructionData]
    norm_num
    refine ⟨by simp [natToLE_length], ?_, ?_⟩
    · rw [List.take_left' (natToLE_length 8 a), leToNat_natToLE,
        Nat.mod_eq_of_lt (by
          calc a < 2 ^ 64 := ha
            _ = 256 ^ 8 := by norm_num)]
    · rw [List.getElem?_append_right (by simp [natToLE_length])]
      simp [natToLE_length, Nat.mod_eq_of_lt hd]

/-- C2: every instruction builder is a pure function returning an `Instruction`
whose account list has exactly the order and signer/writable flags of the
spec's builder table, and the expected program id; in particular
`transferChecked` yields [source(W), mint(—), destination(W), owner(S)] and
`burn` yields [account(W), mint(W), owner(S)]. -/
theorem c2_builder_accounts
    (mint account owner source destination mintAuthority memo programId : List Nat)
    (decimals amount : Nat) (freezeAuthority : Option (List Nat)) :
    ((initializeMint mint decimals mintAuthority freezeAuthority).keys =
        [⟨mint, false, true⟩, ⟨SYSVAR_RENT_PUBKEY, false, false⟩] ∧
      (initializeMint mint decimals mintAuthority freezeAuthority).programId =
        TOKEN_PROGRAM_ID) ∧
    ((initializeAccount account mint owner).keys =
        [⟨account, false, true⟩, ⟨mint, false, false⟩, ⟨owner, false, false⟩,
          ⟨SYSVAR_RENT_PUBKEY, false, false⟩] ∧
      (initializeAccount account mint owner).programId = TOKEN_PROGRAM_ID) ∧
    ((mintTo mint destination amount mintAuthority).keys =
        [⟨mint, false, true⟩, ⟨destination, false, true⟩,
          ⟨mintAuthority, true, false⟩] ∧
      (mintTo mint destination amount mintAuthority).programId =
        TOKEN_PROGRAM_ID) ∧
    ((burn account mint amount owner).keys =
        [⟨account, false, true⟩, ⟨mint, false, true⟩, ⟨owner, true, false⟩] ∧
      (burn account mint amount owner).programId = TOKEN_PROGRAM_ID) ∧
    ((closeAccount source destination owner).keys =
        [⟨source, false, true⟩, ⟨destination, false, true⟩,
          ⟨owner, true, false⟩] ∧
      (closeAccount source destination owner).programId = TOKEN_PROGRAM_ID) ∧
    ((transferChecked source mint destination amount decimals owner
          programId).keys =
        [⟨source, false, true⟩, ⟨mint, false, false⟩,
          ⟨destination, false, true⟩, ⟨owner, true, false⟩] ∧
      (transferChecked source mint destination amount decimals owner
          programId).programId = programId) ∧
    ((memoInstruction memo).keys = [] ∧
      (memoInstruction memo).programId = MEMO_PROGRAM_ID) ∧
    ((assertOwner account owner).keys = [⟨account, false, false⟩] ∧
      (assertOwner account owner).programId = OWNER_VALIDATION_PROGRAM_ID) :=
  ⟨⟨rfl, rfl⟩, ⟨rfl, rfl⟩, ⟨rfl, rfl⟩, ⟨rfl, rfl⟩, ⟨rfl, rfl⟩, ⟨rfl, rfl⟩,
    ⟨rfl, rfl⟩, ⟨rfl, rfl⟩⟩

/-- Witness for C1 at the boundary amount `2 ^ 64 - 1`. -/
theorem c1_layout_roundtrip_witness :
    WellFormedInstr (.transferChecked (2 ^ 64 - 1) 9) ∧
    (decodeTokenInstructionData
        (encodeTokenInstructionData (.transferChecked (2 ^ 64 - 1) 9)) =
      some (.transferChecked (2 ^ 64 - 1) 9) ∧
    (encodeTokenInstructionData (.transferChecked (2 ^ 64 - 1) 9)).length =
      1 + TokenInstruction.span (.transferChecked (2 ^ 64 - 1) 9)) :=
  ⟨by decide, c1_layout_roundtrip (.transferChecked (2 ^ 64 - 1) 9) (by decide)⟩

/-- C3: the create-and-initialize-mint composer yields exactly
`[createAccount(mint), initializeMint]` with the mint key as the only extra
required signer when the requested amount is 0, and exactly the five
instructions `[createAccount(mint), initializeMint, createAccount(initial),
initializeAccount, mintTo]` with signers `[mint, initialAccount]` when the
amount is positive. -/
theorem c3_mint_composition (conn : Connection) (owner : Wallet)
    (mint initialAccount : Keypair) (amount decimals : Nat) :
    (createAndInitializeMintTx conn owner mint amount decimals
        initialAccount).1.instructions =
      (if 0 < amount then
        [systemCreateAccount owner.publicKey mint.publicKey
          (conn.getMinimumBalanceForRentExemption MINT_LAYOUT_span)
          MINT_LAYOUT_span TOKEN_PROGRAM_ID,
         initializeMint mint.publicKey decimals owner.publicKey none,
         systemCreateAccount owner.publicKey initialAccount.publicKey
          (conn.getMinimumBalanceForRentExemption ACCOUNT_LAYOUT_span)
          ACCOUNT_LAYOUT_span TOKEN_PROGRAM_ID,
         initializeAccount initialAccount.publicKey mint.publicKey
          owner.publicKey,
         mintTo mint.publicKey initialAccount.publicKey amount owner.publicKey]
      else
        [systemCreateAccount owner.publicKey mint.publicKey
          (conn.getMinimumBalanceForRentExemption MINT_LAYOUT_span)
          MINT_LAYOUT_span TOKEN_PROGRAM_ID,
         initializeMint mint.publicKey decimals owner.publicKey none]) ∧
    (createAndInitializeMintTx conn owner mint amount decimals
        initialAccount).2 =
      (if 0 < amount then [mint, initialAccount] else [mint]) := by
  unfold createAndInitializeMintTx
  split <;> simp [Transaction.addIx]

/-- C10: `mintMoreTokensWithNewAccount` resolves the identifier `Keypair` in
the `mint.js` module scope as its very first step, but `Keypair` is not in
that scope (it is imported nowhere in `mint.js`), so every call fails with a
reference error before any instruction is composed and before any external
call. -/
theorem c10_missing_keypair_import (generate : Keypair) (conn : Connection)
    (mintAuthority : Wallet) (mint destinationOwner : List Nat) (amount : Nat) :
    mintMoreTokensWithNewAccount mintJsScope generate conn mintAuthority mint
      destinationOwner amount = ([], .error .referenceError) ∧
    MintJsName.keypair ∉ mintJsScope := by
  refine ⟨?_, by decide⟩
  rw [mintMoreTokensWithNewAccount, if_neg (by decide)]

/-- C6: `burnAllTokens` fails with `AccountNotFound` when the token account
does not exist, fails with `ZeroBalance` — after the single account query and
before composing anything — when the decoded balance is 0, and otherwise
delegates to `burnTokensAndClose` with exactly the full decoded balance. -/
theorem c6_burn_all_guard (conn : Connection) (owner : Wallet)
    (tokenAccount mint : List Nat) (shouldClose : Bool) :
    (conn.getAccountInfo tokenAccount = none →
      burnAllTokens conn owner tokenAccount mint shouldClose =
        ([.getAccountInfo tokenAccount], .error .accountNotFound)) ∧
    (∀ info, conn.getAccountInfo tokenAccount = some info →
      (parseTokenAccountData info.data).amount = 0 →
      burnAllTokens conn owner tokenAccount mint shouldClose =
        ([.getAccountInfo tokenAccount], .error .zeroBalance)) ∧
    (∀ info, conn.getAccountInfo tokenAccount = some info →
      (parseTokenAccountData info.data).amount ≠ 0 →
      burnAllTokens conn owner tokenAccount mint shouldClose =
        (ExtCall.getAccountInfo tokenAccount ::
          (burnTokensAndClose conn owner tokenAccount mint
            (parseTokenAccountData info.data).amount shouldClose).1,
         (burnTokensAndClose conn owner tokenAccount mint
            (parseTokenAccountData info.data).amount shouldClose).2)) := by
  refine ⟨fun h => ?_, fun info h hz => ?_, fun info h hnz => ?_⟩
  · rw [burnAllTokens, h]
  · rw [burnAllTokens, h]
    simp [hz]
  · rw [burnAllTokens, h]
    simp [hnz]

set_option maxRecDepth 40000 in
/-- Witness for C6: with the fixture ledgers, a missing account yields
`AccountNotFound`, a zero-balance account yields `ZeroBalance` after only the
account query, and a balance of 5 delegates to `burnTokensAndClose` with
amount 5. -/
theorem c6_burn_all_guard_witness :
    (burnAllTokens baseConn fixtureWallet fixtureOwner fixtureMint true =
      ([.getAccountInfo fixtureOwner], .error .accountNotFound)) ∧
    (burnAllTokens connZeroBalanceAccount fixtureWallet fixtureOwner
        fixtureMint true =
      ([.getAccountInfo fixtureOwner], .error .zeroBalance)) ∧
    (burnAllTokens connFiveBalanceAccount fixtureWallet fixtureOwner
        fixtureMint true =
      (ExtCall.getAccountInfo fixtureOwner ::
        (burnTokensAndClose connFiveBalanceAccount fixtureWallet fixtureOwner
          fixtureMint 5 true).1,
       (burnTokensAndClose connFiveBalanceAccount fixtureWallet fixtureOwner
          fixtureMint 5 true).2)) := by
  refine ⟨(c6_burn_all_guard baseConn fixtureWallet fixtureOwner fixtureMint
      true).1 rfl,
    (c6_burn_all_guard connZeroBalanceAccount fixtureWallet fixtureOwner
      fixtureMint true).2.1 zeroBalanceRecord (by decide) (by decide), ?_⟩
  have h5 : (parseTokenAccountData fiveBalanceRecord.data).amount = 5 := by
    decide
  have := (c6_burn_all_guard connFiveBalanceAccount fixtureWallet fixtureOwner
    fixtureMint true).2.2 fiveBalanceRecord (by decide) (by rw [h5]; decide)
  rw [h5] at this
  exact this

theorem confirmGo_trace_only_polls (conn : Connection) (maxRetries : Nat) :
    ∀ fuel i, (confirmGo conn maxRetries i fuel).1.all
      (· == ExtCall.confirmTransaction) = true := by
  intro fuel
  induction fuel with
  | zero => intro i; rfl
  | succ f ih =>
    intro i
    rw [confirmGo]
    split
    · rfl
    · split
      · rfl
      · simp [ih]
    · split
      · rfl
      · simp [ih]

theorem confirmGo_success (conn : Connection) (maxRetries : Nat) :
    ∀ fuel i n, i + fuel = maxRetries → i ≤ n → n < maxRetries →
    (∀ j, i ≤ j → j < n → conn.confirmResponses j = .failure) →
    conn.confirmResponses n = .success →
    (confirmGo conn maxRetries i fuel).2 = .ok (some ()) := by
  intro fuel
  induction fuel with
  | zero => intro i n hif hin hn _ _; omega
  | succ f ih =>
    intro i n hif hin hn hfail hsucc
    rw [confirmGo]
    rcases Nat.eq_or_lt_of_le hin with rfl | hlt
    · rw [hsucc]
    · rw [hfail i le_rfl hlt, if_neg (by omega)]
      simpa using ih (i + 1) n (by omega) hlt hn
        (fun j hj hjn => hfail j (by omega) hjn) hsucc

theorem confirmGo_exhausted (conn : Connection) (maxRetries : Nat) :
    ∀ fuel i, i + fuel = maxRetries → fuel ≠ 0 →
    (∀ j, i ≤ j → j < maxRetries → conn.confirmResponses j = .failure) →
    (confirmGo conn maxRetries i fuel).2 = .error .rpcFailure := by
  intro fuel
  induction fuel with
  | zero => intro i _ hf _; exact absurd rfl hf
  | succ f ih =>
    intro i hif _ hfail
    rw [confirmGo, hfail i le_rfl (by omega)]
    cases Nat.eq_zero_or_pos f with
    | inl hf0 =>
      rw [if_pos (by omega)]
    | inr hfpos =>
      rw [if_neg (by omega)]
      simpa using ih (i + 1) (by omega) (by omega)
        (fun j hj hjm => hfail j (by omega) hjm)

/-- C9: with the fixed 30-attempt poll, `n` consecutive thrown/pending
responses followed by a success at attempt `n + 1 ≤ 30` yields success;
30 consecutive thrown responses yield the re-thrown poll failure (the
confirmation timeout), an error distinct from the on-chain rejection error;
and the poll's external calls are confirmation queries only — the transaction
is never resubmitted. -/
theorem c9_confirmation_retry (conn conn2 : Connection) (n : Nat) :
    ((∀ i, i < n → conn.confirmResponses i = .failure) →
      conn.confirmResponses n = .success → n + 1 ≤ 30 →
      (confirmTransaction conn 30).2 = .ok (some ())) ∧
    ((∀ i, i < 30 → conn2.confirmResponses i = .failure) →
      (confirmTransaction conn2 30).2 = .error .rpcFailure) ∧
    ExtCall.sendRawTransaction ∉ (confirmTransaction conn 30).1 ∧
    TokenError.rpcFailure ≠ TokenError.transactionFailed := by
  refine ⟨fun hfail hsucc hle => ?_, fun hfail => ?_, ?_, by decide⟩
  · exact confirmGo_success conn 30 30 0 n rfl (by omega) (by omega)
      (fun j _ hj => hfail j hj) hsucc
  · exact confirmGo_exhausted conn2 30 30 0 rfl (by omega)
      (fun j _ hj => hfail j hj)
  · intro hmem
    have hall := confirmGo_trace_only_polls conn 30 30 0
    rw [List.all_eq_true] at hall
    have := hall _ hmem
    simp at this

/-- Witness for C9: three thrown polls then a success confirm; thirty thrown
polls time out; no resubmission either way. -/
theorem c9_confirmation_retry_witness :
    (confirmTransaction connThreeTimeouts 30).2 = .ok (some ()) ∧
    (confirmTransaction connAlwaysTimeout 30).2 = .error .rpcFailure ∧
    ExtCall.sendRawTransaction ∉ (confirmTransaction connThreeTimeouts 30).1 ∧
    TokenError.rpcFailure ≠ TokenError.transactionFailed := by
  obtain ⟨h1, h2, h3, h4⟩ :=
    c9_confirmation_retry connThreeTimeouts connAlwaysTimeout 3
  exact ⟨h1 (by decide) (by decide) (by norm_num), h2 (by decide), h3, h4⟩

/-- C4 counterexample: a destination that exists with zero lamports (no
funding) but is itself token-program-owned is routed to a direct transfer and
never rejected, even with the override flag unset — so the claim's guard, as
stated, does not fire for every unfunded destination. -/
theorem c4_counterexample :
    hasNoLamports (connTokenOwnedZeroLamports.getAccountInfo fixtureOwner) =
      true ∧
    (transferTokens connTokenOwnedZeroLamports fixtureWallet fixtureSource
        fixtureOwner 1 none fixtureMint 0 false TOKEN_PROGRAM_ID).2 =
      .ok (transferBetweenSplTokenAccounts fixtureWallet fixtureMint 0
        fixtureSource fixtureOwner 1 none TOKEN_PROGRAM_ID) ∧
    (transferTokens connTokenOwnedZeroLamports fixtureWallet fixtureSource
        fixtureOwner 1 none fixtureMint 0 false TOKEN_PROGRAM_ID).2 ≠
      .error .destinationUnfunded := by
  refine ⟨by decide, by decide, by decide⟩

/-- C4 (amended): when the destination is not itself a token-program-owned
account, has no ledger account or no lamports, and the override flag is
unset, `transferTokens` raises the unfunded-destination error after exactly
the single destination-account query, with no further external calls and no
instruction built. -/
theorem c4_destination_unfunded (conn : Connection) (owner : Wallet)
    (source dest : List Nat) (amount : Nat) (memo : Option (List Nat))
    (mint : List Nat) (decimals : Nat) (programId : List Nat)
    (hNotToken : isTokenProgramOwned (conn.getAccountInfo dest) programId =
      false)
    (hUnfunded : hasNoLamports (conn.getAccountInfo dest) = true) :
    transferTokens conn owner source dest amount memo mint decimals false
        programId =
      ([.getAccountInfo dest], .error .destinationUnfunded) := by
  simp [transferTokens, hNotToken, hUnfunded]

/-- Witness for C4: a destination absent from the ledger, override unset. -/
theorem c4_destination_unfunded_witness :
    transferTokens baseConn fixtureWallet fixtureSource fixtureOwner 1 none
        fixtureMint 0 false TOKEN_PROGRAM_ID =
      ([.getAccountInfo fixtureOwner], .error .destinationUnfunded) :=
  c4_destination_unfunded baseConn fixtureWallet fixtureSource fixtureOwner 1
    none fixtureMint 0 TOKEN_PROGRAM_ID (by decide) (by decide)

theorem createTransferIxs_unsigned (o m : List Nat) (d : Nat)
    (s dst : List Nat) (a : Nat) (memo : Option (List Nat)) (p : List Nat) :
    (createTransferBetweenSplTokenAccountsInstruction o m d s dst a memo
      p).recentBlockhash = none ∧
    (createTransferBetweenSplTokenAccountsInstruction o m d s dst a memo
      p).signerPubkeys = [] ∧
    (createTransferBetweenSplTokenAccountsInstruction o m d s dst a memo
      p).signedBy = [] := by
  cases memo <;>
    simp [createTransferBetweenSplTokenAccountsInstruction, Transaction.addIx]

theorem transferBetween_unsigned (owner : Wallet) (m : List Nat) (d : Nat)
    (s dst : List Nat) (a : Nat) (memo : Option (List Nat)) (p : List Nat) :
    (transferBetweenSplTokenAccounts owner m d s dst a memo
      p).recentBlockhash = none ∧
    (transferBetweenSplTokenAccounts owner m d s dst a memo
      p).signerPubkeys = [] ∧
    (transferBetweenSplTokenAccounts owner m d s dst a memo p).signedBy
      = [] := by
  unfold transferBetweenSplTokenAccounts
  exact createTransferIxs_unsigned owner.publicKey m d s dst a memo p

theorem createAndTransferToAccount_unsigned (owner : Wallet)
    (s dst : List Nat) (a : Nat) (memo : Option (List Nat)) (m : List Nat)
    (d : Nat) (p : List Nat) (tx : Transaction)
    (h : createAndTransferToAccount owner s dst a memo m d p = .ok tx) :
    tx.recentBlockhash = none ∧ tx.signerPubkeys = [] ∧ tx.signedBy = [] := by
  rw [createAndTransferToAccount] at h
  split at h
  · cases h
  · cases h
    exact ⟨rfl, rfl, rfl⟩

/-- C7: whenever `transferTokens` resolves the destination to a
token-program-owned account (directly, via the derived associated address, or
via create-and-transfer) and returns a transaction, that transaction carries
no blockhash, no declared signers, and no signatures, and every external call
the function made was a read of one account — nothing was signed, sent, or
otherwise mutated. -/
theorem c7_transfer_unsigned (conn : Connection) (owner : Wallet)
    (source dest : List Nat) (amount : Nat) (memo : Option (List Nat))
    (mint : List Nat) (decimals : Nat) (override : Bool)
    (programId : List Nat) :
    (∀ tx, (transferTokens conn owner source dest amount memo mint decimals
        override programId).2 = .ok tx →
      tx.recentBlockhash = none ∧ tx.signerPubkeys = [] ∧ tx.signedBy = []) ∧
    (transferTokens conn owner source dest amount memo mint decimals override
      programId).1.all ExtCall.isAccountRead = true := by
  constructor
  · intro tx htx
    rw [transferTokens] at htx
    split at htx
    · simp only at htx
      cases htx
      exact transferBetween_unsigned _ _ _ _ _ _ _ _
    · split at htx
      · cases htx
      · split at htx
        · cases htx
        · split at htx
          · simp only at htx
            cases htx
            exact transferBetween_unsigned _ _ _ _ _ _ _ _
          · simp only at htx
            exact createAndTransferToAccount_unsigned _ _ _ _ _ _ _ _ _ htx
  · rw [transferTokens]
    split
    · rfl
    · split
      · rfl
      · split
        · rfl
        · split <;> rfl

set_option maxRecDepth 40000 in
set_option maxHeartbeats 2000000 in
/-- Witness for C7: a funded token-program-owned destination yields the
unsigned direct-transfer transaction over a read-only trace. -/
theorem c7_transfer_unsigned_witness :
    ((transferBetweenSplTokenAccounts fixtureWallet fixtureMint 0
        fixtureSource fixtureOwner 1 none TOKEN_PROGRAM_ID).recentBlockhash =
        none ∧
      (transferBetweenSplTokenAccounts fixtureWallet fixtureMint 0
        fixtureSource fixtureOwner 1 none TOKEN_PROGRAM_ID).signerPubkeys =
        [] ∧
      (transferBetweenSplTokenAccounts fixtureWallet fixtureMint 0
        fixtureSource fixtureOwner 1 none TOKEN_PROGRAM_ID).signedBy = []) ∧
    (transferTokens connTokenOwnedFunded fixtureWallet fixtureSource
      fixtureOwner 1 none fixtureMint 0 false TOKEN_PROGRAM_ID).1.all
      ExtCall.isAccountRead = true :=
  ⟨(c7_transfer_unsigned connTokenOwnedFunded fixtureWallet fixtureSource
      fixtureOwner 1 none fixtureMint 0 false TOKEN_PROGRAM_ID).1 _ (by decide),
   (c7_transfer_unsigned connTokenOwnedFunded fixtureWallet fixtureSource
      fixtureOwner 1 none fixtureMint 0 false TOKEN_PROGRAM_ID).2⟩

set_option maxRecDepth 200000 in
set_option maxHeartbeats 4000000 in
/-- C5 counterexample: with a memo supplied, the create-and-transfer path
composes three instructions (create-associated, transferChecked, memo), not
exactly two, for a destination that exists but has no associated token
account. -/
theorem c5_counterexample :
    ((transferTokens connFundedSystemAccount fixtureWallet fixtureSource
        fixtureOwner 1 (some [104, 105]) fixtureMint 0 false
        TOKEN_PROGRAM_ID).2.toOption.map
      fun tx => tx.instructions.length) = some 3 := by
  decide

/-- C5 (amended): when the destination exists outside the token program, is
funded or overridden, and its derived associated address is not
token-program-owned, the composer returns one transaction whose instruction
list is the create-associated instruction, then `transferChecked` to the
derived address, then — only when a memo was supplied — a memo instruction;
with no memo that is exactly two instructions, in that order. -/
theorem c5_create_and_transfer (conn : Connection) (owner : Wallet)
    (source dest : List Nat) (amount : Nat) (memo : Option (List Nat))
    (mint : List Nat) (decimals : Nat) (override : Bool)
    (programId ata : List Nat)
    (h1 : isTokenProgramOwned (conn.getAccountInfo dest) programId = false)
    (h2 : (hasNoLamports (conn.getAccountInfo dest) && !override) = false)
    (hf : findAssociatedTokenAddress dest mint programId = some ata)
    (h4 : isTokenProgramOwned (conn.getAccountInfo ata) programId = false) :
    (transferTokens conn owner source dest amount memo mint decimals override
        programId).2 =
      .ok { instructions :=
        (associatedTokenCreateIx owner.publicKey ata dest mint programId ::
          transferChecked source mint ata amount decimals owner.publicKey
            programId ::
          (match memo with | some m => [memoInstruction m] | none => [])) } := by
  have hcreate : createAssociatedTokenAccountIx owner.publicKey dest mint
      programId =
      some (associatedTokenCreateIx owner.publicKey ata dest mint programId,
        ata) := by
    rw [createAssociatedTokenAccountIx, hf]
    rfl
  rw [transferTokens]
  rw [if_neg (by rw [h1]; intro hc; cases hc)]
  rw [if_neg (by rw [h2]; intro hc; cases hc)]
  simp only [hf]
  rw [if_neg (by rw [h4]; intro hc; cases hc)]
  simp only [createAndTransferToAccount, hcreate]
  cases memo <;>
    simp [createTransferBetweenSplTokenAccountsInstruction, Transaction.addIx]

set_option maxRecDepth 200000 in
set_option maxHeartbeats 4000000 in
/-- Witness for C5 (amended) at the fixture ledger: no memo, destination a
funded system account, associated account absent — exactly the two
instructions, create-associated then transferChecked. -/
theorem c5_create_and_transfer_witness :
    (transferTokens connFundedSystemAccount fixtureWallet fixtureSource
        fixtureOwner 1 none fixtureMint 0 false TOKEN_PROGRAM_ID).2 =
      .ok { instructions :=
        [associatedTokenCreateIx fixtureWallet.publicKey
          pinnedAssociatedAddress fixtureOwner fixtureMint TOKEN_PROGRAM_ID,
         transferChecked fixtureSource fixtureMint pinnedAssociatedAddress 1 0
          fixtureWallet.publicKey TOKEN_PROGRAM_ID] } :=
  c5_create_and_transfer connFundedSystemAccount fixtureWallet fixtureSource
    fixtureOwner 1 none fixtureMint 0 false TOKEN_PROGRAM_ID
    pinnedAssociatedAddress (by decide) (by decide) (by decide) (by decide)

theorem findProgramAddressGo_off_curve (seeds : List (List Nat))
    (pid : List Nat) :
    ∀ n a bump, findProgramAddressGo seeds pid n = some (a, bump) →
      isOnCurve a = false := by
  intro n
  induction n with
  | zero =>
    intro a bump h
    simp [findProgramAddressGo] at h
  | succ k ih =>
    intro a bump h
    rw [findProgramAddressGo] at h
    split at h
    · exact ih a bump h
    · rename_i hc
      cases h
      simpa using hc

set_option maxRecDepth 200000 in
set_option maxHeartbeats 4000000 in
/-- C8: the associated-address deriver is a pure function of exactly the
ordered seed list (owner, token-program id, mint) under the associated-token
derivation authority — equal seed lists give equal addresses, with no other
dependency in its signature; every address it returns is off-curve; and the
fixture triple (`fixtureOwner`, `fixtureMint`, `TOKEN_PROGRAM_ID`) reproduces
the pinned expected address bit-exactly. -/
theorem c8_address_deriver (o m p o2 m2 p2 : List Nat)
    (hseeds : ([o, p, m] : List (List Nat)) = [o2, p2, m2]) :
    findAssociatedTokenAddress o m p = findAssociatedTokenAddress o2 m2 p2 ∧
    (∀ a, findAssociatedTokenAddress o m p = some a →
      isOnCurve a = false) ∧
    findAssociatedTokenAddress fixtureOwner fixtureMint TOKEN_PROGRAM_ID =
      some pinnedAssociatedAddress := by
  obtain ⟨ho, hp, hm⟩ : o = o2 ∧ p = p2 ∧ m = m2 := by simpa using hseeds
  refine ⟨by rw [ho, hp, hm], ?_, by decide⟩
  intro a ha
  rw [findAssociatedTokenAddress, findProgramAddressSync] at ha
  cases hgo : findProgramAddressGo [o, p, m] ASSOCIATED_TOKEN_PROGRAM_ID 255
    with
  | none => rw [hgo] at ha; cases ha
  | some pr =>
    rw [hgo] at ha
    simp at ha
    cases ha
    exact findProgramAddressGo_off_curve _ _ 255 pr.1 pr.2
      (by rw [hgo])

set_option maxRecDepth 200000 in
set_option maxHeartbeats 4000000 in
/-- Witness for C8 at the fixture triple: equal seeds agree, the pinned
address is reproduced, and it is off-curve. -/
theorem c8_address_deriver_witness :
    (findAssociatedTokenAddress fixtureOwner fixtureMint TOKEN_PROGRAM_ID =
      findAssociatedTokenAddress fixtureOwner fixtureMint TOKEN_PROGRAM_ID) ∧
    findAssociatedTokenAddress fixtureOwner fixtureMint TOKEN_PROGRAM_ID =
      some pinnedAssociatedAddress ∧
    isOnCurve pinnedAssociatedAddress = false := by
  have h := c8_address_deriver fixtureOwner fixtureMint TOKEN_PROGRAM_ID
    fixtureOwner fixtureMint TOKEN_PROGRAM_ID rfl
  exact ⟨h.1, h.2.2, h.2.1 pinnedAssociatedAddress h.2.2⟩

end DTools
